import Mathlib

/-!
Verification of the manila repository fragment: the GlusterFS native share
driver (modelled; its implementation module is not part of the source tree,
only its unit tests are, so the model below follows the specification
document and is pinned down by the behavior the in-tree unit tests assert)
and the scheduler RetryFilter (translated directly from
manila/scheduler/filters/retry.py).
-/

namespace Manila

/-! ## Python value fragment used by the RetryFilter

The RetryFilter receives `filter_properties` as a Python dict.  We embed the
small fragment of Python values the filter touches: `None`, strings, lists
and string-keyed dicts, together with dict `get` and Python truthiness.
-/

inductive PyVal where
  | none : PyVal
  | str : String → PyVal
  | list : List PyVal → PyVal
  | dict : List (String × PyVal) → PyVal

mutual

/-- Structural equality on the embedded Python values (Python `==` on this
fragment; values of different shapes compare unequal). -/
def PyVal.beq : PyVal → PyVal → Bool
  | .none, .none => true
  | .str a, .str b => a == b
  | .list a, .list b => PyVal.beqList a b
  | .dict a, .dict b => PyVal.beqDict a b
  | _, _ => false

def PyVal.beqList : List PyVal → List PyVal → Bool
  | [], [] => true
  | a :: as, b :: bs => PyVal.beq a b && PyVal.beqList as bs
  | _, _ => false

def PyVal.beqDict : List (String × PyVal) → List (String × PyVal) → Bool
  | [], [] => true
  | a :: as, b :: bs => a.1 == b.1 && PyVal.beq a.2 b.2 && PyVal.beqDict as bs
  | _, _ => false

end

instance : BEq PyVal := ⟨PyVal.beq⟩

/-- Python `d.get(k, default)` on a dict value (association list, first
binding wins); on a non-dict receiver the filter would crash, we return the
default (the filter is only ever handed dicts there). -/
def PyVal.get (v : PyVal) (k : String) (dflt : PyVal) : PyVal :=
  match v with
  | .dict entries =>
      match entries.find? (fun e => e.1 == k) with
      | .some e => e.2
      | .none => dflt
  | _ => dflt

/-- Python truthiness for the embedded fragment: `None` is falsy, strings,
lists and dicts are truthy exactly when nonempty. -/
def PyVal.truthy : PyVal → Bool
  | .none => false
  | .str s => s ≠ ""
  | .list l => !l.isEmpty
  | .dict l => !l.isEmpty

/-! ## RetryFilter (manila/scheduler/filters/retry.py)

Direct translation of `RetryFilter.host_passes`.  `host_state` enters only
through its `host` attribute, a string.  The filter is a pure function of
its two arguments: it reads `filter_properties['retry']`, returns `True`
when that entry is absent or falsy, otherwise checks membership of the host
in `retry['hosts']` (defaulting to the empty list).
-/

def host_passes (host_state_host : String) (filter_properties : PyVal) : Bool :=
  let retry := filter_properties.get "retry" PyVal.none
  if !retry.truthy then
    -- Re-scheduling is disabled
    true
  else
    let hosts := retry.get "hosts" (.list [])
    let hostsList := match hosts with | .list l => l | _ => []
    -- Host passes if it is not in the list of previously attempted hosts:
    !(hostsList.contains (.str host_state_host))

/-- The previously-tried host list carried in `filter_properties`, read the
way the spec describes it: the `hosts` list under the `retry` entry, empty
when either key is absent. -/
def previouslyTriedHosts (filter_properties : PyVal) : List PyVal :=
  match (filter_properties.get "retry" PyVal.none).get "hosts" (.list []) with
  | .list l => l
  | _ => []

/-! ## Error taxonomy and the executor contract

The spec names the domain error kinds (section 7).  The executor raises a
transport/process failure (`ProcessExecutionError`) carrying an exit
status; the driver is supposed to catch such failures at each call site and
re-raise a domain kind (in the Python source every such re-raise is a
`GlusterfsException` or one of its refinements such as
`ShareSnapshotNotSupported`).  We keep both levels in one error type so the
theorems can state that a transport error never escapes an operation. -/

inductive DomainErr where
  | backendUnavailable
  | poolExhausted
  | volumeSetupFailed
  | volumeNotManaged
  | accessUpdateFailed
  | invalidAccessType
  | wipeFailed
  | snapshotFailed
  | snapshotNotSupported
  | ambiguousSnapshot
  | unsupportedBackendVersion
deriving DecidableEq, Repr

/-- A transport/process failure raised by the remote command executor
(`ProcessExecutionError`), carrying an exit status. -/
structure TransportErr where
  exitStatus : Int
deriving DecidableEq, Repr

inductive Err where
  | transport : TransportErr → Err
  | domain : DomainErr → Err
deriving DecidableEq, Repr

deriving instance DecidableEq for Except

/-- Whether an error is one of the domain kinds of the taxonomy. -/
def Err.isDomain : Err → Bool
  | .transport _ => false
  | .domain _ => true

/-- Lexicographic comparison of backend version pairs (major, minor), as
done on the numeric reduction of the version tuples. -/
def versGT (a b : Nat × Nat) : Bool :=
  b.1 < a.1 || (a.1 == b.1 && b.2 < a.2)

/-! ## VolumePoolRegistry: acquire (`_pop_gluster_vol`)

Modelled from the spec: the driver module holding `_pop_gluster_vol` is not
under src/ (only its unit tests are).  The pool is the fetched volume
dictionary (volume name paired with the optional parsed size attribute)
minus the used set.  The spec prefers an exact size match and falls back to
a volume with no size attribute; the in-tree unit test
`test_pop_gluster_vol` additionally requires that a free volume whose size
attribute exceeds the request is accepted (its first data case returns the
size-2 volume for a size-1 request), so the selection has a third tier for
oversized volumes.  On success the chosen volume joins the used set. -/

def popGlusterVol (voldict : List (String × Option Nat)) (used : List String)
    (size : Option Nat) : Except Err (String × List String) :=
  let unused := voldict.filter (fun v => !(used.contains v.1))
  match size with
  | .none =>
      match unused with
      | [] => .error (.domain .poolExhausted)
      | v :: _ => .ok (v.1, v.1 :: used)
  | .some s =>
      match unused.find? (fun v => v.2 == some s) with
      | .some v => .ok (v.1, v.1 :: used)
      | .none =>
      match unused.find? (fun v => v.2 == Option.none) with
      | .some v => .ok (v.1, v.1 :: used)
      | .none =>
      match unused.find? (fun v => match v.2 with | some t => decide (s ≤ t) | _ => false) with
      | .some v => .ok (v.1, v.1 :: used)
      | .none => .error (.domain .poolExhausted)

/-- A free volume is acceptable for a request when the request or its size
attribute is absent, or its size attribute is at least the request. -/
def sizeFits (size : Option Nat) (attr : Option Nat) : Bool :=
  match size, attr with
  | Option.none, _ => true
  | _, Option.none => true
  | some s, some t => s ≤ t

/-! ## Wipe sequence (`_wipe_gluster_vol`)

Modelled from the spec: the driver module holding `_wipe_gluster_vol` is
not under src/.  The phase structure follows spec section 4.3 where the
in-tree unit tests (`test_wipe_gluster_vol` and its `excp1`..`excp5`,
`mount_fail`, `umount_fail` variants) do not pin it down, and follows those
tests where they do: the re-enable pair runs client-side first and only
after a successful delete and unmount (`excp5` asserts that after a delete
failure only the two disable calls were issued), a failed client-side
re-enable skips the server-side one (`excp3`), a mount failure removes the
scratch directory without unmounting (`mount_fail`), and an unmount failure
skips the scratch directory removal (`umount_fail`).  The environment gives
the outcome of each remote interaction; the result records the outcome and
the ordered trace of observable events. -/

inductive WEvent where
  | call (args : List String)
  | restart
  | mkdtemp
  | mount
  | exec (argv : List String)
  | umount
  | rmtree
deriving DecidableEq, Repr

structure WipeEnv where
  glusterCall : List String → Except TransportErr Unit
  mountVol : Except DomainErr Unit
  execute : List String → Except TransportErr Unit
  umountVol : Except DomainErr Unit

/-- Trash-can awareness of a backend version: strictly newer than (3, 6). -/
def trashcanAware (vers : Nat × Nat) : Bool :=
  versGT vers (3, 6)

/-- The argument vector of the recursive delete beneath the scratch mount
point; trash-can-aware backends keep the trash-can-internal directories. -/
def findDeleteArgs (tmpdir : String) (aware : Bool) : List String :=
  if aware then
    ["find", tmpdir, "-mindepth", "1", "!", "-path", tmpdir ++ "/.trashcan",
     "!", "-path", tmpdir ++ "/.trashcan/internal_op", "-delete"]
  else
    ["find", tmpdir, "-mindepth", "1", "-delete"]

/-- The paths a `find` argument vector excludes from deletion: those marked
by a `! -path <p>` triple. -/
def excludedPaths : List String → List String
  | "!" :: "-path" :: p :: rest => p :: excludedPaths rest
  | _ :: rest => excludedPaths rest
  | [] => []

def wipeGlusterVol (env : WipeEnv) (vol : String) (vers : Nat × Nat)
    (tmpdir : String) : Except Err Unit × List WEvent :=
  let offClient := ["volume", "set", vol, "client.ssl", "off"]
  match env.glusterCall offClient with
  | .error _ => (.error (.domain .wipeFailed), [.call offClient])
  | .ok _ =>
  let offServer := ["volume", "set", vol, "server.ssl", "off"]
  match env.glusterCall offServer with
  | .error _ => (.error (.domain .wipeFailed), [.call offClient, .call offServer])
  | .ok _ =>
  -- first restart, then the scratch mount
  let pre := [WEvent.call offClient, .call offServer, .restart, .mkdtemp, .mount]
  match env.mountVol with
  | .error e => (.error (.domain e), pre ++ [.rmtree])
  | .ok _ =>
  let argv := findDeleteArgs tmpdir (trashcanAware vers)
  match env.execute argv with
  | .error _ =>
      -- the delete failed: the cleanup clause still unmounts and removes
      -- the scratch directory, then the delete failure is reported (an
      -- unmount failure in the cleanup clause takes over)
      match env.umountVol with
      | .error e => (.error (.domain e), pre ++ [.exec argv, .umount])
      | .ok _ => (.error (.domain .wipeFailed), pre ++ [.exec argv, .umount, .rmtree])
  | .ok _ =>
  match env.umountVol with
  | .error e => (.error (.domain e), pre ++ [.exec argv, .umount])
  | .ok _ =>
  let post := pre ++ [WEvent.exec argv, .umount, .rmtree]
  let onClient := ["volume", "set", vol, "client.ssl", "on"]
  match env.glusterCall onClient with
  | .error _ => (.error (.domain .wipeFailed), post ++ [.call onClient])
  | .ok _ =>
  let onServer := ["volume", "set", vol, "server.ssl", "on"]
  match env.glusterCall onServer with
  | .error _ => (.error (.domain .wipeFailed), post ++ [.call onClient, .call onServer])
  | .ok _ => (.ok (), post ++ [.call onClient, .call onServer, .restart])

/-! ## Snapshot lifecycle (`create_snapshot`, `_find_actual_backend_snapshot_name`,
`delete_snapshot`)

Modelled from the spec: the driver module holding these methods is not
under src/.  `create_snapshot` consults the per-volume `NoSnapCache`
marker; a marked volume replays a stored (-1, 0) structured result without
any remote call, an unmarked one issues the one snapshot-create command and
decodes its structured (return-code, error-code) reply, as the in-tree unit
tests `test_create_snapshot*` assert.  A nonzero return code with error
code 0 means the feature is absent; the failure is soft
(`ShareSnapshotNotSupported`) and newly cached when the backend version is
above (3, 6), and hard (a generic `GlusterfsException`, our
`snapshotFailed`) otherwise.  The snapshot environment gives the decoded
reply of a remote snapshot command. -/

structure SnapEnv where
  call : List String → Except TransportErr (Int × Int)

/-- Interpretation of the structured (return-code, error-code) reply of a
snapshot-create attempt: return code 0 succeeds; a nonzero return code with
error code 0 on a version above (3, 6) is the soft feature-absent failure
and caches the `NoSnapCache` marker; anything else is the hard failure. -/
def snapResultKind (vers : Nat × Nat) (cached : Bool) (opRet opErrno : Int)
    (tr : List (List String)) : Except Err Unit × List (List String) × Bool :=
  if opRet == 0 then (.ok (), tr, cached)
  else if versGT vers (3, 6) && opErrno == 0 then
    (.error (.domain .snapshotNotSupported), tr, true)
  else
    (.error (.domain .snapshotFailed), tr, cached)

/-- Result of `create_snapshot`: outcome, ordered trace of the remote
commands issued, and whether the volume carries the `NoSnapCache` marker
afterwards.  A marked volume replays the stored (-1, 0) reply without a
remote call; an unmarked one issues the create command. -/
def createSnapshot (env : SnapEnv) (cached : Bool) (vers : Nat × Nat)
    (snapId vol : String) : Except Err Unit × List (List String) × Bool :=
  let args := ["--xml", "snapshot", "create", "manila-" ++ snapId, vol]
  if cached then snapResultKind vers true (-1) 0 []
  else
    match env.call args with
    | .error _ => (.error (.domain .snapshotFailed), [args], false)
    | .ok (opRet, opErrno) => snapResultKind vers false opRet opErrno [args]

/-- Python `str.split` with a one-character separator, on strings embedded
as character lists; split of the empty string yields one empty field,
exactly as in Python. -/
def pySplit (s : List Char) (sep : Char) : List (List Char) :=
  match s with
  | [] => [[]]
  | c :: rest =>
      let r := pySplit rest sep
      if c = sep then [] :: r
      else
        match r with
        | [] => [[c]]
        | h :: t => (c :: h) :: t

/-- Python `sep.join`, on strings embedded as character lists. -/
def pyJoin (ls : List (List Char)) (sep : Char) : List Char :=
  match ls with
  | [] => []
  | [x] => x
  | x :: rest => x ++ sep :: pyJoin rest sep

/-- Python substring containment (`needle in haystack`) on strings embedded
as character lists. -/
def isSubstringOf (needle haystack : List Char) : Bool :=
  match haystack with
  | [] => decide (needle = [])
  | _ :: rest => needle.isPrefixOf haystack || isSubstringOf needle rest

/-- Resolution of a client snapshot id to the backend snapshot name: list
the snapshots of the volume, split the listing on newlines, keep the lines
containing the client id as a substring; exactly one candidate is expected.
A listing failure is re-raised as a domain error; zero or several
candidates fail with the ambiguous-snapshot kind.  The listing output and
the client id are Python strings, embedded as character lists. -/
def findActualBackendSnapshotName (listing : Except TransportErr (List Char))
    (snapId : List Char) (vol : String) :
    Except Err (List Char) × List (List String) :=
  let args := ["snapshot", "list", vol, "--mode=script"]
  match listing with
  | .error _ => (.error (.domain .snapshotFailed), [args])
  | .ok out =>
      let snapgrep := (pySplit out '\n').filter
        (fun l => isSubstringOf snapId l)
      match snapgrep with
      | [name] => (.ok name, [args])
      | _ => (.error (.domain .ambiguousSnapshot), [args])

/-- `delete_snapshot`: resolve the backend name first; only on a unique
resolution issue the snapshot-delete command and decode its structured
reply. -/
def deleteSnapshot (listing : Except TransportErr (List Char))
    (delCall : List String → Except TransportErr (Int × Int))
    (snapId : List Char) (vol : String) : Except Err Unit × List (List String) :=
  match findActualBackendSnapshotName listing snapId vol with
  | (.error e, tr) => (.error e, tr)
  | (.ok name, tr) =>
      let args := ["--xml", "snapshot", "delete", String.mk name, "--mode=script"]
      match delCall args with
      | .error _ => (.error (.domain .snapshotFailed), tr ++ [args])
      | .ok (opRet, _) =>
          if opRet == 0 then (.ok (), tr ++ [args])
          else (.error (.domain .snapshotFailed), tr ++ [args])

/-! ## AccessControlList (`allow_access`, `deny_access`)

Modelled from the spec: the driver module holding these methods is not
under src/.  Python strings are embedded as character lists; `pySplit` and
`pyJoin` are Python `str.split` and `str.join` with a one-character
separator (split of the empty string yields one empty field, exactly as in
Python).  The allow-list is stored as the comma-joined `auth.ssl-allow`
option value.  Following the in-tree unit tests `test_allow_access*` and
`test_deny_access*`: a non-cert access type fails upfront; a principal
already present (allow) or absent (deny) is a no-op with no write and no
restart; otherwise the updated list is written back (append for allow,
first-occurrence removal for deny) and a volume restart is triggered. -/

/-- The only access type the driver accepts. -/
def ACCESS_TYPE_CERT : List Char := 'c' :: 'e' :: 'r' :: 't' :: []

structure AclEnv where
  setOption : List Char → Except TransportErr Unit

inductive AclEvent where
  | write (optValue : List Char)
  | restart
deriving DecidableEq, Repr

def allowAccess (env : AclEnv) (accessType accessTo sslAllowOpt : List Char) :
    Except Err Unit × List AclEvent :=
  if accessType ≠ ACCESS_TYPE_CERT then (.error (.domain .invalidAccessType), [])
  else
    let sslAllow := pySplit sslAllowOpt ','
    if sslAllow.contains accessTo then
      -- access already granted: no-op
      (.ok (), [])
    else
      let newOpt := pyJoin (sslAllow ++ [accessTo]) ','
      match env.setOption newOpt with
      | .error _ => (.error (.domain .accessUpdateFailed), [.write newOpt])
      | .ok _ => (.ok (), [.write newOpt, .restart])

def denyAccess (env : AclEnv) (accessType accessTo sslAllowOpt : List Char) :
    Except Err Unit × List AclEvent :=
  if accessType ≠ ACCESS_TYPE_CERT then (.error (.domain .invalidAccessType), [])
  else
    let sslAllow := pySplit sslAllowOpt ','
    if ¬ sslAllow.contains accessTo then
      -- no access to deny: no-op
      (.ok (), [])
    else
      let newOpt := pyJoin (sslAllow.erase accessTo) ','
      match env.setOption newOpt with
      | .error _ => (.error (.domain .accessUpdateFailed), [.write newOpt])
      | .ok _ => (.ok (), [.write newOpt, .restart])

/-! ## BackendVersionGate (`do_setup` version resolution)

Modelled from the spec: `do_setup` and `GlusterManager.get_gluster_version`
are not under src/.  The version fetch wraps any executor failure into a
domain error at its call site; `do_setup` fetches every configured
server once and aborts on the first failure, and a fetched version below
the minimum (3, 6) aborts with the unsupported-version kind before any
volume is touched, as the in-tree tests `test_do_setup*` assert. -/

def minSupportedVersion : Nat × Nat := (3, 6)

/-- The per-server version fetch: an executor failure is wrapped into a
domain error at the call site. -/
def getGlusterVersion (fetch : Except TransportErr (Nat × Nat)) :
    Except Err (Nat × Nat) :=
  match fetch with
  | .error _ => .error (.domain .backendUnavailable)
  | .ok v => .ok v

def doSetupVersions (servers : List String)
    (fetch : String → Except TransportErr (Nat × Nat)) :
    Except Err (List (String × (Nat × Nat))) :=
  match servers with
  | [] => .ok []
  | srv :: rest =>
      match getGlusterVersion (fetch srv) with
      | .error e => .error e
      | .ok v =>
          if versGT minSupportedVersion v then
            .error (.domain .unsupportedBackendVersion)
          else
            match doSetupVersions rest fetch with
            | .error e => .error e
            | .ok vs => .ok ((srv, v) :: vs)

/-! ## VolumePoolRegistry: refresh (`_fetch_gluster_volumes`), per-volume
setup (`_setup_gluster_vol`) and the full acquire path

Modelled from the spec: the driver module holding `_fetch_gluster_volumes`
and `_setup_gluster_vol` is not under src/.  The refresh queries every
configured server's `volume list`, wrapping any executor failure into a
domain error at the call site (fail-fast, no partial pool); each listing
line is matched against the external naming pattern — taken here as an
oracle returning, for a matching name, its optional parsed size — and
matching volumes enter the pool keyed by server and name, as
`test_fetch_gluster_volumes` and `test_fetch_gluster_volumes_error`
assert. -/

def fetchGlusterVolumes (servers : List String)
    (listVols : String → Except TransportErr (List Char))
    (pattern : List Char → Option (Option Nat)) :
    Except Err (List (String × Option Nat)) :=
  match servers with
  | [] => .ok []
  | srv :: rest =>
      match listVols srv with
      | .error _ => .error (.domain .backendUnavailable)
      | .ok out =>
          let vols := (pySplit out '\n').filterMap
            (fun volname =>
              match pattern volname with
              | .none => Option.none
              | .some sz => some (srv ++ ":/" ++ String.mk volname, sz))
          match fetchGlusterVolumes rest listVols pattern with
          | .error e => .error e
          | .ok more => .ok (vols ++ more)

/-- Environment of the one-time per-volume setup: the read of the
`auth.ssl-allow` option (absent when the volume has none) and the remote
option writes. -/
structure SetupEnv where
  getOption : Except TransportErr (Option (List Char))
  glusterCall : List String → Except TransportErr Unit

inductive SEvent where
  | call (args : List String)
  | restart
deriving DecidableEq, Repr

/-- One-time idempotent per-volume setup on selection: read the
`auth.ssl-allow` option (a missing option aborts before any write), then
disable the legacy NFS export mode and enable client- and server-side
transport security, then restart; any executor failure is wrapped into a
domain error and skips the restart, as `test_setup_gluster_vol`,
`test_setup_gluster_vols_excp` and `test_setup_gluster_vol_no_ssl_allow`
assert. -/
def setupGlusterVol (env : SetupEnv) (vol : String) :
    Except Err Unit × List SEvent :=
  match env.getOption with
  | .error _ => (.error (.domain .volumeSetupFailed), [])
  | .ok Option.none => (.error (.domain .volumeSetupFailed), [])
  | .ok (.some _) =>
      let a1 := ["volume", "set", vol, "nfs.export-volumes", "off"]
      match env.glusterCall a1 with
      | .error _ => (.error (.domain .volumeSetupFailed), [.call a1])
      | .ok _ =>
      let a2 := ["volume", "set", vol, "client.ssl", "on"]
      match env.glusterCall a2 with
      | .error _ => (.error (.domain .volumeSetupFailed), [.call a1, .call a2])
      | .ok _ =>
      let a3 := ["volume", "set", vol, "server.ssl", "on"]
      match env.glusterCall a3 with
      | .error _ =>
          (.error (.domain .volumeSetupFailed), [.call a1, .call a2, .call a3])
      | .ok _ => (.ok (), [.call a1, .call a2, .call a3, .restart])

/-- The full acquire path of `_pop_gluster_vol`: refresh the pool from the
backends, select a free volume, then run the per-volume setup on it; a
setup failure leaves the volume unregistered. -/
def popGlusterVolFull (servers : List String)
    (listVols : String → Except TransportErr (List Char))
    (pattern : List Char → Option (Option Nat))
    (setupEnv : String → SetupEnv)
    (used : List String) (size : Option Nat) :
    Except Err (String × List String) × List SEvent :=
  match fetchGlusterVolumes servers listVols pattern with
  | .error e => (.error e, [])
  | .ok voldict =>
      match popGlusterVol voldict used size with
      | .error e => (.error e, [])
      | .ok (v, used2) =>
          match setupGlusterVol (setupEnv v) v with
          | (.error e, tr) => (.error e, tr)
          | (.ok _, tr) => (.ok (v, used2), tr)

/-! ## `create_share_from_snapshot`

Modelled from the spec: the driver module holding
`create_share_from_snapshot` is not under src/.  A source volume whose
backend version does not support clone (not above (3, 6)) aborts before any
remote call; otherwise the backend snapshot name is resolved on the old
volume's server, the snapshot is force-activated and cloned into the new
volume named from the share id, and only after the clone succeeds is the
new volume registered and configured (ACL baseline from the first
comma-separated field of its `auth.ssl-allow` option, then a volume start),
as the four `test_create_share_from_snapshot*` tests assert.  Any executor
failure is wrapped into a domain error at its call site. -/

structure CloneEnv where
  oldCall : List String → Except TransportErr Unit
  getOption : Except TransportErr (Option (List Char))
  newCall : List String → Except TransportErr Unit

inductive CsEvent where
  | oldCall (args : List String)
  | newCall (args : List String)
deriving DecidableEq, Repr

/-- Result of `create_share_from_snapshot`: outcome (the new export
location), the ordered trace of remote commands on the old and new volume
servers, and the used set afterwards. -/
def createShareFromSnapshot (env : CloneEnv) (vers : Nat × Nat)
    (listing : Except TransportErr (List Char)) (snapId : List Char)
    (oldVol newHost shareId : String) (used : List String) :
    Except Err String × List CsEvent × List String :=
  if !(versGT vers (3, 6)) then
    -- clone unsupported on this backend version: abort, no remote call
    (.error (.domain .unsupportedBackendVersion), [], used)
  else
    match findActualBackendSnapshotName listing snapId oldVol with
    | (.error e, tr) => (.error e, tr.map CsEvent.oldCall, used)
    | (.ok name, tr) =>
        let volume := "manila-" ++ shareId
        let tr0 := tr.map CsEvent.oldCall
        let actArgs :=
          ["snapshot", "activate", String.mk name, "force", "--mode=script"]
        match env.oldCall actArgs with
        | .error _ =>
            (.error (.domain .snapshotFailed), tr0 ++ [.oldCall actArgs], used)
        | .ok _ =>
        let cloneArgs := ["snapshot", "clone", volume, String.mk name]
        match env.oldCall cloneArgs with
        | .error _ =>
            (.error (.domain .snapshotFailed),
             tr0 ++ [.oldCall actArgs, .oldCall cloneArgs], used)
        | .ok _ =>
        let newExport := newHost ++ ":/" ++ volume
        let used2 := newExport :: used
        let tr1 := tr0 ++ [CsEvent.oldCall actArgs, .oldCall cloneArgs]
        match env.getOption with
        | .error _ => (.error (.domain .volumeSetupFailed), tr1, used2)
        | .ok Option.none => (.error (.domain .volumeSetupFailed), tr1, used2)
        | .ok (.some optVal) =>
            let sslAllow := (pySplit optVal ',').headD []
            let setArgs :=
              ["volume", "set", volume, "auth.ssl-allow", String.mk sslAllow]
            match env.newCall setArgs with
            | .error _ =>
                (.error (.domain .volumeSetupFailed),
                 tr1 ++ [.newCall setArgs], used2)
            | .ok _ =>
            let startArgs := ["volume", "start", volume]
            match env.newCall startArgs with
            | .error _ =>
                (.error (.domain .volumeSetupFailed),
                 tr1 ++ [.newCall setArgs, .newCall startArgs], used2)
            | .ok _ =>
                (.ok newExport,
                 tr1 ++ [.newCall setArgs, .newCall startArgs], used2)

/-! ## Concrete environments used by counterexamples and witnesses -/

/-- Wipe environment where every remote interaction succeeds. -/
def envAllOk : WipeEnv :=
  { glusterCall := fun _ => .ok (), mountVol := .ok (),
    execute := fun _ => .ok (), umountVol := .ok () }

/-- Wipe environment where only the recursive delete fails (the setting of
the in-tree unit test `test_wipe_gluster_vol_excp5`). -/
def envDeleteFail : WipeEnv :=
  { glusterCall := fun _ => .ok (), mountVol := .ok (),
    execute := fun _ => .error ⟨1⟩, umountVol := .ok () }

/-- Wipe environment where the first remote command (disabling client-side
transport security) fails (the setting of `test_wipe_gluster_vol_excp1`). -/
def envClientOffFail : WipeEnv :=
  { glusterCall := fun args =>
      if args == ["volume", "set", "gv1", "client.ssl", "off"] then .error ⟨1⟩
      else .ok (),
    mountVol := .ok (), execute := fun _ => .ok (), umountVol := .ok () }

/-- Snapshot environment whose structured reply is (-1, 0): the operation
failed and the backend reports the snapshot feature absent. -/
def snapEnvFeatureAbsent : SnapEnv := ⟨fun _ => .ok (-1, 0)⟩

/-- ACL environment where the option write succeeds. -/
def aclEnvOk : AclEnv := ⟨fun _ => .ok ()⟩

/-!
# Theorems
-/

/-- Claim C9: for every host_state and filter_properties,
`RetryFilter.host_passes` returns `True` exactly when the host is not in
the previously-tried host list carried in filter_properties (the `hosts`
list under the `retry` entry, empty when absent); the filter is a pure
function of these two inputs and keeps no state of its own. -/
theorem host_passes_iff_not_previously_tried (h : String) (fp : PyVal) :
    host_passes h fp = true ↔
      (previouslyTriedHosts fp).contains (.str h) = false := by
  unfold host_passes previouslyTriedHosts
  cases hr : fp.get "retry" PyVal.none with
  | none => simp [PyVal.truthy, PyVal.get]
  | str s =>
      by_cases hs : s = "" <;>
        simp [PyVal.truthy, PyVal.get, hs]
  | list l =>
      cases l <;> simp [PyVal.truthy, PyVal.get]
  | dict entries =>
      cases entries with
      | nil => simp [PyVal.truthy, PyVal.get]
      | cons e es =>
          simp only [PyVal.truthy, PyVal.get, List.isEmpty_cons,
            Bool.not_false, Bool.not_true, if_neg, Bool.false_eq_true,
            not_false_iff, if_false]
          cases hf : (e :: es).find? (fun x => x.1 == "hosts") with
          | none => simp [hf]
          | some ev =>
              simp only [hf]
              cases hv : ev.2 <;> simp

/-- Claim C10: if `filter_properties` has no `retry` entry or that entry is
falsy, `RetryFilter.host_passes` returns `True` for every host; and if the
retry entry is a dict without a `hosts` key, the previously-tried list
defaults to empty, so every host passes as well. -/
theorem host_passes_default_cases (h : String) (fp : PyVal) :
    ((fp.get "retry" PyVal.none).truthy = false → host_passes h fp = true) ∧
    (∀ entries, fp.get "retry" PyVal.none = .dict entries →
      (∀ e ∈ entries, e.1 ≠ "hosts") → host_passes h fp = true) := by
  constructor
  · intro hfalsy
    unfold host_passes
    simp [hfalsy]
  · intro entries hdict hnone
    unfold host_passes
    rw [hdict]
    have hfind : entries.find? (fun x => x.1 == "hosts") = Option.none := by
      rw [List.find?_eq_none]
      intro x hx
      simpa using hnone x hx
    by_cases ht : (PyVal.dict entries).truthy = true
    · simp [ht, PyVal.get, hfind]
    · simp [ht]

/-- Witness for C10: a filter_properties without a retry entry, and one
whose retry dict has no hosts key; both pass every host. -/
theorem host_passes_default_cases_witness :
    host_passes "host1" (PyVal.dict []) = true ∧
    host_passes "host1"
      (PyVal.dict [("retry", .dict [("num_attempts", .str "2")])]) = true :=
  ⟨(host_passes_default_cases "host1" (PyVal.dict [])).1 (by rfl),
   (host_passes_default_cases "host1"
      (PyVal.dict [("retry", .dict [("num_attempts", .str "2")])])).2
     [("num_attempts", .str "2")] (by rfl)
     (by
       intro e he
       rcases List.mem_singleton.mp he with rfl
       decide)⟩

/-- Claim C1, counterexample: for the pool holding the single free volume
`host:/share2G` with size attribute 2 and requested size 1 (the first data
case of `test_pop_gluster_vol`), acquire returns that volume — whose size
attribute 2 differs from the requested 1 — instead of failing with
PoolExhausted, contradicting both the "exact match or unsized, else
PoolExhausted" selection and the "never returns a free volume whose size
differs from s" consequence. -/
theorem pop_gluster_vol_oversized_counterexample :
    popGlusterVol [("host:/share2G", some 2)] [] (some 1) =
      .ok ("host:/share2G", ["host:/share2G"]) ∧
    (some 2 : Option Nat) ≠ some 1 := by decide

/-- Claim C1, amended: acquire returns a free volume whose size attribute
fits the request — equal or larger, or no size attribute at all (and any
volume fits an absent request) — whenever such a free volume exists,
preferring a free volume whose size attribute is exactly the request;
otherwise it fails with PoolExhausted.  The returned volume is recorded as
used. -/
theorem pop_gluster_vol_spec (voldict : List (String × Option Nat))
    (used : List String) (s : Option Nat) :
    (∀ v used2, popGlusterVol voldict used s = .ok (v, used2) →
        used2 = v :: used ∧ used.contains v = false ∧
        ∃ e ∈ voldict, e.1 = v ∧ sizeFits s e.2 = true) ∧
    ((∃ e ∈ voldict, used.contains e.1 = false ∧ sizeFits s e.2 = true) →
        ∃ v used2, popGlusterVol voldict used s = .ok (v, used2)) ∧
    ((∀ e ∈ voldict, used.contains e.1 = false → sizeFits s e.2 = false) →
        popGlusterVol voldict used s = .error (.domain .poolExhausted)) ∧
    (∀ n, s = some n →
        (∃ e ∈ voldict, used.contains e.1 = false ∧ e.2 = some n) →
        ∃ v used2, popGlusterVol voldict used s = .ok (v, used2) ∧
          ∃ e ∈ voldict, e.1 = v ∧ e.2 = some n) := by
  have hsub : ∀ e, e ∈ voldict.filter (fun v => !(used.contains v.1)) →
      e ∈ voldict ∧ used.contains e.1 = false := by
    intro e he
    have h := List.mem_filter.mp he
    exact ⟨h.1, by simpa using h.2⟩
  have hmemf : ∀ e, e ∈ voldict → used.contains e.1 = false →
      e ∈ voldict.filter (fun v => !(used.contains v.1)) := by
    intro e he hc
    exact List.mem_filter.mpr ⟨he, by simpa using hc⟩
  refine ⟨?_, ?_, ?_, ?_⟩
  · -- soundness of a successful selection
    intro v used2 hok
    unfold popGlusterVol at hok
    cases s with
    | none =>
        cases hu : voldict.filter (fun v => !(used.contains v.1)) with
        | nil =>
            simp only [hu] at hok
            exact Except.noConfusion hok
        | cons e rest =>
            simp only [hu, Except.ok.injEq, Prod.mk.injEq] at hok
            obtain ⟨h1, h2⟩ := hok
            have hin : e ∈ voldict.filter (fun v => !(used.contains v.1)) := by
              rw [hu]; exact List.mem_cons_self e rest
            obtain ⟨hev, hc⟩ := hsub e hin
            subst h1
            refine ⟨h2.symm, hc, e, hev, rfl, ?_⟩
            cases e.2 <;> rfl
    | some n =>
        rcases hf1 : (voldict.filter (fun v => !(used.contains v.1))).find?
            (fun v => v.2 == some n) with _ | e1
        · rcases hf2 : (voldict.filter (fun v => !(used.contains v.1))).find?
              (fun v => v.2 == Option.none) with _ | e2
          · rcases hf3 : (voldict.filter (fun v => !(used.contains v.1))).find?
                (fun v => match v.2 with | some t => decide (n ≤ t) | _ => false)
                with _ | e3
            · simp only [hf1, hf2, hf3] at hok
              exact Except.noConfusion hok
            · simp only [hf1, hf2, hf3, Except.ok.injEq, Prod.mk.injEq] at hok
              obtain ⟨h1, h2⟩ := hok
              obtain ⟨hev, hc⟩ := hsub e3 (List.mem_of_find?_eq_some hf3)
              have hp := List.find?_some hf3
              subst h1
              refine ⟨h2.symm, hc, e3, hev, rfl, ?_⟩
              cases ha : e3.2 with
              | none => rw [ha] at hp; simp at hp
              | some t => rw [ha] at hp; simpa [sizeFits] using hp
          · simp only [hf1, hf2, Except.ok.injEq, Prod.mk.injEq] at hok
            obtain ⟨h1, h2⟩ := hok
            obtain ⟨hev, hc⟩ := hsub e2 (List.mem_of_find?_eq_some hf2)
            have hp := List.find?_some hf2
            have ha : e2.2 = Option.none := by simpa using hp
            subst h1
            exact ⟨h2.symm, hc, e2, hev, rfl, by rw [ha]; rfl⟩
        · simp only [hf1, Except.ok.injEq, Prod.mk.injEq] at hok
          obtain ⟨h1, h2⟩ := hok
          obtain ⟨hev, hc⟩ := hsub e1 (List.mem_of_find?_eq_some hf1)
          have hp := List.find?_some hf1
          have ha : e1.2 = some n := by simpa using hp
          subst h1
          exact ⟨h2.symm, hc, e1, hev, rfl, by rw [ha]; simp [sizeFits]⟩
  · -- completeness: an acceptable free volume yields a selection
    rintro ⟨e, hev, hc, hfit⟩
    have hin := hmemf e hev hc
    unfold popGlusterVol
    cases s with
    | none =>
        cases hu : voldict.filter (fun v => !(used.contains v.1)) with
        | nil =>
            rw [hu] at hin
            exact absurd hin (List.not_mem_nil e)
        | cons e0 rest => exact ⟨e0.1, e0.1 :: used, rfl⟩
    | some n =>
        rcases hf1 : (voldict.filter (fun v => !(used.contains v.1))).find?
            (fun v => v.2 == some n) with _ | e1
        · rcases hf2 : (voldict.filter (fun v => !(used.contains v.1))).find?
              (fun v => v.2 == Option.none) with _ | e2
          · rcases hf3 : (voldict.filter (fun v => !(used.contains v.1))).find?
                (fun v => match v.2 with | some t => decide (n ≤ t) | _ => false)
                with _ | e3
            · exfalso
              have h1 := List.find?_eq_none.mp hf1 e hin
              have h2 := List.find?_eq_none.mp hf2 e hin
              have h3 := List.find?_eq_none.mp hf3 e hin
              cases ha : e.2 with
              | none => rw [ha] at h2; simp at h2
              | some t =>
                  rw [ha] at h3
                  rw [ha] at hfit
                  simp only [sizeFits] at hfit
                  simp [hfit] at h3
            · exact ⟨e3.1, e3.1 :: used, by simp only [hf1, hf2, hf3]⟩
          · exact ⟨e2.1, e2.1 :: used, by simp only [hf1, hf2]⟩
        · exact ⟨e1.1, e1.1 :: used, by simp only [hf1]⟩
  · -- exhaustion: no acceptable free volume yields PoolExhausted
    intro hall
    have hnone : ∀ e, e ∈ voldict.filter (fun v => !(used.contains v.1)) →
        sizeFits s e.2 = false := by
      intro e he
      obtain ⟨hev, hc⟩ := hsub e he
      exact hall e hev hc
    unfold popGlusterVol
    cases s with
    | none =>
        cases hu : voldict.filter (fun v => !(used.contains v.1)) with
        | nil => rfl
        | cons e0 rest =>
            exfalso
            have h := hnone e0 (by rw [hu]; exact List.mem_cons_self e0 rest)
            cases ha : e0.2 <;> rw [ha] at h <;> simp [sizeFits] at h
    | some n =>
        have hf1 : (voldict.filter (fun v => !(used.contains v.1))).find?
            (fun v => v.2 == some n) = Option.none := by
          rw [List.find?_eq_none]
          intro e he hp
          have h := hnone e he
          have he2 : e.2 = some n := by simpa using hp
          rw [he2] at h
          simp [sizeFits] at h
        have hf2 : (voldict.filter (fun v => !(used.contains v.1))).find?
            (fun v => v.2 == Option.none) = Option.none := by
          rw [List.find?_eq_none]
          intro e he hp
          have h := hnone e he
          have he2 : e.2 = Option.none := by simpa using hp
          rw [he2] at h
          simp [sizeFits] at h
        have hf3 : (voldict.filter (fun v => !(used.contains v.1))).find?
            (fun v => match v.2 with | some t => decide (n ≤ t) | _ => false) =
            Option.none := by
          rw [List.find?_eq_none]
          intro e he hp
          have h := hnone e he
          cases ha : e.2 with
          | none => rw [ha] at hp; simp at hp
          | some t =>
              rw [ha] at h
              rw [ha] at hp
              simp only [decide_eq_true_eq] at hp
              simp only [sizeFits, decide_eq_false_iff_not] at h
              exact h hp
        simp only [hf1, hf2, hf3]
  · -- preference for an exact size match
    intro n hs hex
    subst hs
    obtain ⟨e, hev, hc, ha⟩ := hex
    have hin := hmemf e hev hc
    have hne : (voldict.filter (fun v => !(used.contains v.1))).find?
        (fun v => v.2 == some n) ≠ Option.none := by
      intro habs
      have h := List.find?_eq_none.mp habs e hin
      rw [ha] at h
      simp at h
    rcases hf1 : (voldict.filter (fun v => !(used.contains v.1))).find?
        (fun v => v.2 == some n) with _ | e1
    · exact absurd hf1 hne
    · obtain ⟨hev1, _⟩ := hsub e1 (List.mem_of_find?_eq_some hf1)
      have hp := List.find?_some hf1
      have ha1 : e1.2 = some n := by simpa using hp
      refine ⟨e1.1, e1.1 :: used, ?_, e1, hev1, rfl, ha1⟩
      unfold popGlusterVol
      simp only [hf1]

/-- Witness for C1 (amended) at the setting of the second data case of
`test_pop_gluster_vol_excp`: a pool whose only volume is already used is
exhausted for any request. -/
theorem pop_gluster_vol_spec_witness :
    popGlusterVol [("share2G", some 2)] ["share2G"] Option.none =
      .error (.domain .poolExhausted) :=
  (pop_gluster_vol_spec [("share2G", some 2)] ["share2G"] Option.none).2.2.1
    (by
      intro e he hc
      rcases List.mem_singleton.mp he with rfl
      exact absurd hc (by decide))

/-- Claim C4, counterexample: a volume on backend version (3, 6) — below
the minimum supporting snapshots — with no NoSnapCache marker DOES issue
the remote snapshot-create command (exactly one remote call), and only the
structured reply (-1, 0) then makes it fail hard, contradicting the claim
that a below-minimum volume fails without issuing any remote call (setting
of `test_create_snapshot_no_snap` with vers_minor 6). -/
theorem create_snapshot_low_version_counterexample :
    createSnapshot snapEnvFeatureAbsent false (3, 6) "fake_snap_id" "gv1" =
      (.error (.domain .snapshotFailed),
       [["--xml", "snapshot", "create", "manila-fake_snap_id", "gv1"]],
       false) := by decide

/-- Claim C4, amended: createSnapshot on a volume carrying a NoSnapCache
marker fails without issuing any remote call, the failure kind being hard
(generic GlusterfsException) when the backend version is below the minimum
supporting snapshots and soft (ShareSnapshotNotSupported) when the version
nominally supports them; a volume without the marker always issues exactly
the one snapshot-create command — even below the minimum version — and when
the structured reply signals the feature absent (nonzero return code, error
code 0) it fails with the same version-dependent kind. -/
theorem create_snapshot_spec (env : SnapEnv) (cached : Bool)
    (vers : Nat × Nat) (snapId vol : String) :
    (cached = true →
      createSnapshot env cached vers snapId vol =
        (.error (.domain
          (if versGT vers (3, 6) then DomainErr.snapshotNotSupported
           else DomainErr.snapshotFailed)), [], true)) ∧
    (cached = false →
      (createSnapshot env cached vers snapId vol).2.1 =
        [["--xml", "snapshot", "create", "manila-" ++ snapId, vol]]) ∧
    (cached = false → ∀ r er,
      env.call ["--xml", "snapshot", "create", "manila-" ++ snapId, vol] =
        .ok (r, er) → r ≠ 0 → er = 0 →
      (createSnapshot env cached vers snapId vol).1 =
        .error (.domain
          (if versGT vers (3, 6) then DomainErr.snapshotNotSupported
           else DomainErr.snapshotFailed))) := by
  refine ⟨?_, ?_, ?_⟩
  · intro hcached
    subst hcached
    cases hv : versGT vers (3, 6) <;>
      simp [createSnapshot, snapResultKind, hv]
  · intro hcached
    subst hcached
    rcases hcall : env.call ["--xml", "snapshot", "create", "manila-" ++ snapId, vol]
      with t | p
    · simp [createSnapshot, snapResultKind, hcall]
    · rcases p with ⟨r, er⟩
      by_cases hr : r == 0
      · simp [createSnapshot, snapResultKind, hcall, hr]
      · cases hv : (versGT vers (3, 6) && (er == 0)) <;>
          simp [createSnapshot, snapResultKind, hcall, hr, hv]
  · intro hcached r er hcall hr her
    subst hcached
    subst her
    have hr0 : (r == 0) = false := by simpa using hr
    cases hv : versGT vers (3, 6) <;>
      simp [createSnapshot, snapResultKind, hcall, hr0, hv]

/-- Witness for C4 (amended) at the cached setting of
`test_create_snapshot_no_snap_cached` with vers_minor 7: the marked volume
fails soft with no remote call. -/
theorem create_snapshot_spec_witness :
    createSnapshot snapEnvFeatureAbsent true (3, 7) "fake_snap_id" "gv1" =
      (.error (.domain
        (if versGT (3, 7) (3, 6) then DomainErr.snapshotNotSupported
         else DomainErr.snapshotFailed)), [], true) :=
  (create_snapshot_spec snapEnvFeatureAbsent true (3, 7) "fake_snap_id"
    "gv1").1 rfl

/-- Helper: the structured-reply interpretation only fails with domain
error kinds. -/
theorem snapResultKind_error_isDomain (vers : Nat × Nat) (cached : Bool)
    (opRet opErrno : Int) (tr : List (List String)) (e : Err)
    (h : (snapResultKind vers cached opRet opErrno tr).1 = .error e) :
    e.isDomain = true := by
  simp only [snapResultKind] at h
  repeat' split at h
  all_goals try (injection h with h)
  all_goals try (subst h)
  all_goals simp_all [Err.isDomain]

/-- Helper: the snapshot-name resolution only fails with domain error
kinds. -/
theorem findActual_error_isDomain (listing : Except TransportErr (List Char))
    (snapId : List Char) (vol : String) (e : Err) (tr : List (List String))
    (h : findActualBackendSnapshotName listing snapId vol = (.error e, tr)) :
    e.isDomain = true := by
  simp only [findActualBackendSnapshotName] at h
  repeat' split at h
  all_goals injection h with h1 h2
  all_goals try (injection h1 with h1)
  all_goals try (subst h1)
  all_goals simp_all [Err.isDomain]

/-- Helper: the pool refresh only fails with domain error kinds. -/
theorem fetchGlusterVolumes_error_isDomain (servers : List String)
    (listVols : String → Except TransportErr (List Char))
    (pattern : List Char → Option (Option Nat)) (e : Err)
    (h : fetchGlusterVolumes servers listVols pattern = .error e) :
    e.isDomain = true := by
  induction servers with
  | nil => simp [fetchGlusterVolumes] at h
  | cons srv rest ih =>
      simp only [fetchGlusterVolumes] at h
      rcases hc : listVols srv with t | out
      · rw [hc] at h
        simp at h
        subst h
        rfl
      · rw [hc] at h
        simp only [] at h
        rcases hr : fetchGlusterVolumes rest listVols pattern with e2 | more
        · rw [hr] at h
          injection h with h
          subst h
          exact ih hr
        · rw [hr] at h
          exact Except.noConfusion h

/-- Helper: the one-time per-volume setup only fails with domain error
kinds. -/
theorem setupGlusterVol_error_isDomain (env : SetupEnv) (vol : String)
    (e : Err) (h : (setupGlusterVol env vol).1 = .error e) :
    e.isDomain = true := by
  simp only [setupGlusterVol] at h
  repeat' split at h
  all_goals try (injection h with h)
  all_goals try (subst h)
  all_goals simp_all [Err.isDomain]

/-- Helper: volume selection only fails with domain error kinds. -/
theorem popGlusterVol_error_isDomain (voldict : List (String × Option Nat))
    (used : List String) (size : Option Nat) (e : Err)
    (h : popGlusterVol voldict used size = .error e) : e.isDomain = true := by
  simp only [popGlusterVol] at h
  repeat' split at h
  all_goals try (injection h with h)
  all_goals try (subst h)
  all_goals simp_all [Err.isDomain]

/-- Claim C5: for every operation of the core — pool refresh, the full
acquire path (refresh, selection, per-volume setup), the wipe sequence,
snapshot create and delete, create-share-from-snapshot, the ACL mutations
and the setup version resolution — under every behavior of the remote
executor, a failing result carries a domain error kind: a raw transport
error never escapes to the caller.  In particular a listing failure of any
single server aborts the whole pool refresh with a domain error, and the
setup version resolution aborts entirely (with a domain error) as soon as
any configured server's version fetch fails. -/
theorem no_transport_error_escapes :
    (∀ voldict used s e, popGlusterVol voldict used s = .error e →
        e.isDomain = true) ∧
    (∀ env vol vers tmpdir e,
        (wipeGlusterVol env vol vers tmpdir).1 = .error e →
        e.isDomain = true) ∧
    (∀ env cached vers snapId vol e,
        (createSnapshot env cached vers snapId vol).1 = .error e →
        e.isDomain = true) ∧
    (∀ listing delCall snapId vol e,
        (deleteSnapshot listing delCall snapId vol).1 = .error e →
        e.isDomain = true) ∧
    (∀ env accessType accessTo opt e,
        (allowAccess env accessType accessTo opt).1 = .error e →
        e.isDomain = true) ∧
    (∀ env accessType accessTo opt e,
        (denyAccess env accessType accessTo opt).1 = .error e →
        e.isDomain = true) ∧
    (∀ servers fetch e, doSetupVersions servers fetch = .error e →
        e.isDomain = true) ∧
    (∀ servers (fetch : String → Except TransportErr (Nat × Nat)) srv t,
        srv ∈ servers → fetch srv = .error t →
        ∃ e, doSetupVersions servers fetch = .error e ∧ e.isDomain = true) ∧
    (∀ servers listVols pattern e,
        fetchGlusterVolumes servers listVols pattern = .error e →
        e.isDomain = true) ∧
    (∀ servers (listVols : String → Except TransportErr (List Char))
        pattern srv t, srv ∈ servers → listVols srv = .error t →
        ∃ e, fetchGlusterVolumes servers listVols pattern = .error e ∧
          e.isDomain = true) ∧
    (∀ env vol e, (setupGlusterVol env vol).1 = .error e →
        e.isDomain = true) ∧
    (∀ servers listVols pattern setupEnv used size e,
        (popGlusterVolFull servers listVols pattern setupEnv used size).1 =
          .error e → e.isDomain = true) ∧
    (∀ env vers listing snapId oldVol newHost shareId used e,
        (createShareFromSnapshot env vers listing snapId oldVol newHost
          shareId used).1 = .error e → e.isDomain = true) := by
  refine ⟨?_, ?_, ?_, ?_, ?_, ?_, ?_, ?_, ?_, ?_, ?_, ?_, ?_⟩
  · intro voldict used s e h
    exact popGlusterVol_error_isDomain voldict used s e h
  · intro env vol vers tmpdir e h
    simp only [wipeGlusterVol] at h
    repeat' split at h
    all_goals try (injection h with h)
    all_goals try (subst h)
    all_goals simp_all [Err.isDomain]
  · intro env cached vers snapId vol e h
    simp only [createSnapshot] at h
    repeat' split at h
    · exact snapResultKind_error_isDomain _ _ _ _ _ _ h
    · simp only [] at h
      injection h with h
      subst h
      rfl
    · exact snapResultKind_error_isDomain _ _ _ _ _ _ h
  · intro listing delCall snapId vol e h
    simp only [deleteSnapshot] at h
    split at h
    · rename_i e2 tr2 heq
      simp only [] at h
      injection h with h
      subst h
      exact findActual_error_isDomain _ _ _ _ _ heq
    · repeat' split at h
      all_goals try (injection h with h)
      all_goals try (subst h)
      all_goals simp_all [Err.isDomain]
  · intro env accessType accessTo opt e h
    simp only [allowAccess] at h
    repeat' split at h
    all_goals try (injection h with h)
    all_goals try (subst h)
    all_goals simp_all [Err.isDomain]
  · intro env accessType accessTo opt e h
    simp only [denyAccess] at h
    repeat' split at h
    all_goals try (injection h with h)
    all_goals try (subst h)
    all_goals simp_all [Err.isDomain]
  · intro servers fetch e h
    induction servers with
    | nil => simp [doSetupVersions] at h
    | cons srv rest ih =>
        simp only [doSetupVersions, getGlusterVersion] at h
        rcases hf : fetch srv with t | v
        · rw [hf] at h
          simp at h
          subst h
          rfl
        · rw [hf] at h
          simp only [] at h
          by_cases hv : versGT minSupportedVersion v = true
          · simp only [hv, if_true] at h
            injection h with h
            subst h
            rfl
          · rw [if_neg hv] at h
            rcases hr : doSetupVersions rest fetch with e2 | vs
            · rw [hr] at h
              injection h with h
              subst h
              exact ih hr
            · rw [hr] at h
              exact Except.noConfusion h
  · intro servers fetch srv t hmem hfail
    induction servers with
    | nil => exact absurd hmem (List.not_mem_nil srv)
    | cons srv0 rest ih =>
        rcases hf0 : fetch srv0 with t0 | v0
        · exact ⟨.domain .backendUnavailable,
            by simp [doSetupVersions, getGlusterVersion, hf0], rfl⟩
        · rcases List.mem_cons.mp hmem with rfl | hmem2
          · rw [hfail] at hf0
            exact Except.noConfusion hf0
          · by_cases hv : versGT minSupportedVersion v0
            · exact ⟨.domain .unsupportedBackendVersion,
                by simp [doSetupVersions, getGlusterVersion, hf0, hv], rfl⟩
            · obtain ⟨e, he, hd⟩ := ih hmem2
              refine ⟨e, ?_, hd⟩
              simp only [doSetupVersions, getGlusterVersion, hf0]
              rw [if_neg ?_]
              · rw [he]
              · simp [hv]
  · intro servers listVols pattern e h
    exact fetchGlusterVolumes_error_isDomain servers listVols pattern e h
  · intro servers listVols pattern srv t hmem hfail
    induction servers with
    | nil => exact absurd hmem (List.not_mem_nil srv)
    | cons srv0 rest ih =>
        rcases hc : listVols srv0 with t0 | out
        · exact ⟨.domain .backendUnavailable,
            by simp [fetchGlusterVolumes, hc], rfl⟩
        · rcases List.mem_cons.mp hmem with rfl | hmem2
          · rw [hfail] at hc
            exact Except.noConfusion hc
          · obtain ⟨e, he, hd⟩ := ih hmem2
            refine ⟨e, ?_, hd⟩
            simp only [fetchGlusterVolumes, hc]
            rw [he]
  · intro env vol e h
    exact setupGlusterVol_error_isDomain env vol e h
  · intro servers listVols pattern setupEnv used size e h
    simp only [popGlusterVolFull] at h
    split at h
    · rename_i e2 heq
      injection h with h
      subst h
      exact fetchGlusterVolumes_error_isDomain _ _ _ _ heq
    · split at h
      · rename_i e2 heq
        injection h with h
        subst h
        exact popGlusterVol_error_isDomain _ _ _ _ heq
      · split at h
        · rename_i e2 tr2 heq
          injection h with h
          subst h
          exact setupGlusterVol_error_isDomain _ _ _ (by rw [heq])
        · exact Except.noConfusion h
  · intro env vers listing snapId oldVol newHost shareId used e h
    simp only [createShareFromSnapshot] at h
    split at h
    · injection h with h
      subst h
      rfl
    · split at h
      · rename_i e2 tr2 heq
        injection h with h
        subst h
        exact findActual_error_isDomain _ _ _ _ _ heq
      · repeat' split at h
        all_goals try (injection h with h)
        all_goals try (subst h)
        all_goals simp_all [Err.isDomain]

/-- Witness for C5: with a single configured server whose version fetch
raises a transport error, setup aborts with a domain error. -/
theorem no_transport_error_escapes_witness :
    ∃ e, doSetupVersions ["root@host1"] (fun _ => .error ⟨1⟩) = .error e ∧
      e.isDomain = true :=
  no_transport_error_escapes.2.2.2.2.2.2.2.1 ["root@host1"]
    (fun _ => .error ⟨1⟩) "root@host1" ⟨1⟩ (by decide) rfl

/-- Claim C7: deleteSnapshot resolves the client snapshot id by listing the
volume snapshots and keeping the lines containing the id; when the number
of matching lines is not exactly one it fails with the ambiguous-snapshot
kind and its whole remote trace is the one listing command — no delete
command is ever issued; when exactly one line matches, the resolution
succeeds with that backend name. -/
theorem delete_snapshot_ambiguous_spec (out : List Char)
    (delCall : List String → Except TransportErr (Int × Int))
    (snapId : List Char) (vol : String) :
    (((pySplit out '\n').filter (fun l => isSubstringOf snapId l)).length ≠ 1 →
      deleteSnapshot (.ok out) delCall snapId vol =
        (.error (.domain .ambiguousSnapshot),
         [["snapshot", "list", vol, "--mode=script"]])) ∧
    (∀ name, (pySplit out '\n').filter (fun l => isSubstringOf snapId l) = [name] →
      findActualBackendSnapshotName (.ok out) snapId vol =
        (.ok name, [["snapshot", "list", vol, "--mode=script"]])) := by
  constructor
  · intro hlen
    cases hg : (pySplit out '\n').filter (fun l => isSubstringOf snapId l) with
    | nil => simp [deleteSnapshot, findActualBackendSnapshotName, hg]
    | cons name rest =>
        cases rest with
        | nil =>
            rw [hg] at hlen
            simp at hlen
        | cons name2 rest2 =>
            simp [deleteSnapshot, findActualBackendSnapshotName, hg]
  · intro name hg
    simp [findActualBackendSnapshotName, hg]

/-- Witness for C7 at the setting of
`test_find_actual_backend_snapshot_name_bad_snap_list`: a listing with two
lines matching the client id fails ambiguous with no delete command. -/
theorem delete_snapshot_ambiguous_spec_witness :
    deleteSnapshot (.ok ("fake_snap_id_xyx\nfake_snap_id_pqr".toList))
        (fun _ => .ok (0, 0)) ("fake_snap_id".toList) "gv1" =
      (.error (.domain .ambiguousSnapshot),
       [["snapshot", "list", "gv1", "--mode=script"]]) :=
  (delete_snapshot_ambiguous_spec ("fake_snap_id_xyx\nfake_snap_id_pqr".toList)
    (fun _ => .ok (0, 0)) ("fake_snap_id".toList) "gv1").1 (by decide)

/-- Helper: a split always yields at least one field. -/
theorem pySplit_ne_nil (s : List Char) (sep : Char) : pySplit s sep ≠ [] := by
  induction s with
  | nil => simp [pySplit]
  | cons c rest ih =>
      simp only [pySplit]
      by_cases hc : c = sep
      · simp [hc]
      · simp only [hc, if_false]
        cases hr : pySplit rest sep with
        | nil => exact absurd hr ih
        | cons h t => simp

/-- Helper: no field of a split contains the separator. -/
theorem pySplit_fields_no_sep (sep : Char) (s : List Char) :
    ∀ l ∈ pySplit s sep, sep ∉ l := by
  induction s with
  | nil =>
      intro l hl
      simp [pySplit] at hl
      subst hl
      simp
  | cons c rest ih =>
      intro l hl
      simp only [pySplit] at hl
      by_cases hc : c = sep
      · rw [if_pos hc] at hl
        rcases List.mem_cons.mp hl with rfl | hl2
        · simp
        · exact ih l hl2
      · rw [if_neg hc] at hl
        cases hr : pySplit rest sep with
        | nil => exact absurd hr (pySplit_ne_nil rest sep)
        | cons hf tf =>
            rw [hr] at hl
            rcases List.mem_cons.mp hl with rfl | hl2
            · intro hmem
              rcases List.mem_cons.mp hmem with rfl | hmem2
              · exact hc rfl
              · exact ih hf (by rw [hr]; exact List.mem_cons_self hf tf) hmem2
            · exact ih l (by rw [hr]; exact List.mem_cons_of_mem hf hl2)

/-- Helper: splitting a separator-free string yields that one field. -/
theorem pySplit_of_no_sep (sep : Char) (x : List Char) (hx : sep ∉ x) :
    pySplit x sep = [x] := by
  induction x with
  | nil => rfl
  | cons c rest ih =>
      have hc : ¬ c = sep := by
        intro habs
        exact hx (by rw [habs]; exact List.mem_cons_self sep rest)
      have hrest : sep ∉ rest := fun hm => hx (List.mem_cons_of_mem c hm)
      simp only [pySplit, hc, if_false, ih hrest]

/-- Helper: splitting past a separator-free head peels one field. -/
theorem pySplit_append (sep : Char) (x w : List Char) (hx : sep ∉ x) :
    pySplit (x ++ sep :: w) sep = x :: pySplit w sep := by
  induction x with
  | nil => simp [pySplit]
  | cons c rest ih =>
      have hc : ¬ c = sep := by
        intro habs
        exact hx (by rw [habs]; exact List.mem_cons_self sep rest)
      have hrest : sep ∉ rest := fun hm => hx (List.mem_cons_of_mem c hm)
      simp only [List.cons_append, pySplit, hc, if_false, List.append_eq,
        ih hrest]

/-- Helper: splitting a join of separator-free fields recovers them. -/
theorem pySplit_pyJoin (sep : Char) (ls : List (List Char))
    (h : ∀ l ∈ ls, sep ∉ l) (hne : ls ≠ []) :
    pySplit (pyJoin ls sep) sep = ls := by
  induction ls with
  | nil => exact absurd rfl hne
  | cons x rest ih =>
      cases rest with
      | nil => exact pySplit_of_no_sep sep x (h x (List.mem_cons_self x []))
      | cons y rest2 =>
          have hx : sep ∉ x := h x (List.mem_cons_self x (y :: rest2))
          have h2 : ∀ l ∈ y :: rest2, sep ∉ l := fun l hl =>
            h l (List.mem_cons_of_mem x hl)
          calc pySplit (pyJoin (x :: y :: rest2) sep) sep
              = pySplit (x ++ sep :: pyJoin (y :: rest2) sep) sep := rfl
            _ = x :: pySplit (pyJoin (y :: rest2) sep) sep :=
                pySplit_append sep x (pyJoin (y :: rest2) sep) hx
            _ = x :: (y :: rest2) := by rw [ih h2 (by simp)]

/-- Claim C8: ACL mutation is a no-op when its membership condition already
holds: allow with the principal already in the allow-list and deny with the
principal absent from it both succeed while issuing no remote write command
and no volume-configuration restart; consequently allow called twice issues
no write and no restart on the second call (for a comma-free principal —
the list is stored comma-joined). -/
theorem acl_noop_spec :
    (∀ env accessTo opt, (pySplit opt ',').contains accessTo = true →
        allowAccess env ACCESS_TYPE_CERT accessTo opt = (.ok (), [])) ∧
    (∀ env accessTo opt, (pySplit opt ',').contains accessTo = false →
        denyAccess env ACCESS_TYPE_CERT accessTo opt = (.ok (), [])) ∧
    (∀ env env2 accessTo opt newOpt, ',' ∉ accessTo →
        (allowAccess env ACCESS_TYPE_CERT accessTo opt).2 =
          [.write newOpt, .restart] →
        allowAccess env2 ACCESS_TYPE_CERT accessTo newOpt = (.ok (), [])) := by
  have hforallow : ∀ env accessTo opt,
      (pySplit opt ',').contains accessTo = true →
      allowAccess env ACCESS_TYPE_CERT accessTo opt = (.ok (), []) := by
    intro env accessTo opt hmem
    have hm2 : accessTo ∈ pySplit opt ',' := by simpa using hmem
    simp [allowAccess, hm2]
  refine ⟨hforallow, ?_, ?_⟩
  · intro env accessTo opt hmem
    have hm2 : accessTo ∉ pySplit opt ',' := by simpa using hmem
    simp [denyAccess, hm2]
  · intro env env2 accessTo opt newOpt hcomma htrace
    by_cases hmem : (pySplit opt ',').contains accessTo = true
    · rw [hforallow env accessTo opt hmem] at htrace
      exact absurd htrace (by simp)
    · have hm3 : accessTo ∉ pySplit opt ',' := by simpa using hmem
      rcases hw : env.setOption (pyJoin ((pySplit opt ',') ++ [accessTo]) ',')
        with t | u
      · simp [allowAccess, hm3, hw] at htrace
      · simp [allowAccess, hm3, hw] at htrace
        subst htrace
        apply hforallow
        have hsplit : pySplit (pyJoin ((pySplit opt ',') ++ [accessTo]) ',') ',' =
            (pySplit opt ',') ++ [accessTo] := by
          apply pySplit_pyJoin
          · intro l hl
            rcases List.mem_append.mp hl with hl1 | hl2
            · exact pySplit_fields_no_sep ',' opt l hl1
            · rcases List.mem_singleton.mp hl2 with rfl
              exact hcomma
          · simp
        rw [hsplit]
        simp

/-- Witness for C8 at the setting of
`test_allow_access_with_share_having_access`: allowing an already-granted
principal issues neither a write nor a restart. -/
theorem acl_noop_spec_witness :
    allowAccess aclEnvOk ACCESS_TYPE_CERT ("client.example.com".toList)
      ("some.common.name,client.example.com".toList) = (.ok (), []) :=
  acl_noop_spec.1 aclEnvOk ("client.example.com".toList)
    ("some.common.name,client.example.com".toList) (by decide)

/-- Claim C3: if disabling client-side transport security (the first wipe
phase) fails, the wipe fails with a domain error and its whole observable
trace is that single remote command: no server-side disable, no restart, no
temporary-directory creation, no mount, no delete, no unmount, no
directory removal and no re-enable ever runs in that wipe. -/
theorem wipe_client_disable_failure_aborts (env : WipeEnv) (vol : String)
    (vers : Nat × Nat) (tmpdir : String) (t : TransportErr)
    (hfail : env.glusterCall ["volume", "set", vol, "client.ssl", "off"] =
      .error t) :
    wipeGlusterVol env vol vers tmpdir =
      (.error (.domain .wipeFailed),
       [.call ["volume", "set", vol, "client.ssl", "off"]]) := by
  simp only [wipeGlusterVol, hfail]

/-- Witness for C3 at the setting of `test_wipe_gluster_vol_excp1`. -/
theorem wipe_client_disable_failure_aborts_witness :
    wipeGlusterVol envClientOffFail "gv1" (3, 6) "/tmp/tmpKGHKJ" =
      (.error (.domain .wipeFailed),
       [.call ["volume", "set", "gv1", "client.ssl", "off"]]) :=
  wipe_client_disable_failure_aborts envClientOffFail "gv1" (3, 6)
    "/tmp/tmpKGHKJ" ⟨1⟩ (by decide)

/-- Helper: every delete command issued by the wipe sequence is the one
`find` argument vector built for the backend version. -/
theorem wipe_exec_events (env : WipeEnv) (vol : String) (vers : Nat × Nat)
    (tmpdir : String) :
    ∀ argv, WEvent.exec argv ∈ (wipeGlusterVol env vol vers tmpdir).2 →
      argv = findDeleteArgs tmpdir (trashcanAware vers) := by
  intro argv hmem
  simp only [wipeGlusterVol] at hmem
  repeat' split at hmem
  all_goals simp_all

/-- Claim C6: the recursive delete of the wipe sequence works beneath the
scratch mount point, and excludes exactly the trash-can-internal
subdirectories (`.trashcan` and `.trashcan/internal_op`) when the resolved
backend version is trash-can-aware, and nothing otherwise.  (The hypothesis
merely rules out the degenerate mount point named like the `!` marker of
`find`.) -/
theorem wipe_delete_trashcan_exclusion (env : WipeEnv) (vol : String)
    (vers : Nat × Nat) (tmpdir : String) (htmp : tmpdir ≠ "!") :
    ∀ argv, WEvent.exec argv ∈ (wipeGlusterVol env vol vers tmpdir).2 →
      argv.take 4 = ["find", tmpdir, "-mindepth", "1"] ∧
      "-delete" ∈ argv ∧
      excludedPaths argv =
        (if trashcanAware vers then
          [tmpdir ++ "/.trashcan", tmpdir ++ "/.trashcan/internal_op"]
         else []) := by
  intro argv hmem
  have hargv := wipe_exec_events env vol vers tmpdir argv hmem
  subst hargv
  cases haware : trashcanAware vers <;>
    simp [findDeleteArgs, excludedPaths, htmp]

/-- Witness for C6 on a trash-can-aware backend version (3, 7), the setting
of `test_wipe_gluster_vol` with vers_minor 7. -/
theorem wipe_delete_trashcan_exclusion_witness :
    (findDeleteArgs "/tmp/tmpKGHKJ" (trashcanAware (3, 7))).take 4 =
        ["find", "/tmp/tmpKGHKJ", "-mindepth", "1"] ∧
    "-delete" ∈ findDeleteArgs "/tmp/tmpKGHKJ" (trashcanAware (3, 7)) ∧
    excludedPaths (findDeleteArgs "/tmp/tmpKGHKJ" (trashcanAware (3, 7))) =
      (if trashcanAware (3, 7) then
        ["/tmp/tmpKGHKJ" ++ "/.trashcan", "/tmp/tmpKGHKJ" ++ "/.trashcan/internal_op"]
       else []) :=
  wipe_delete_trashcan_exclusion envAllOk "gv1" (3, 7) "/tmp/tmpKGHKJ"
    (by decide) (findDeleteArgs "/tmp/tmpKGHKJ" (trashcanAware (3, 7)))
    (by decide)

/-- Claim C2, counterexample: in the setting of
`test_wipe_gluster_vol_excp5` (the recursive delete fails after a
successful mount), the wipe unmounts and removes the scratch directory and
fails, but does NOT re-enable transport security: neither the server-side
nor the client-side re-enable command is ever issued, contradicting the
claim that both re-enables are attempted unconditionally once the mount
succeeded. -/
theorem wipe_delete_failure_skips_reenable_counterexample :
    (wipeGlusterVol envDeleteFail "gv1" (3, 6) "/tmp/tmpKGHKJ").1 =
        .error (.domain .wipeFailed) ∧
    WEvent.mount ∈ (wipeGlusterVol envDeleteFail "gv1" (3, 6) "/tmp/tmpKGHKJ").2 ∧
    WEvent.umount ∈ (wipeGlusterVol envDeleteFail "gv1" (3, 6) "/tmp/tmpKGHKJ").2 ∧
    WEvent.rmtree ∈ (wipeGlusterVol envDeleteFail "gv1" (3, 6) "/tmp/tmpKGHKJ").2 ∧
    WEvent.call ["volume", "set", "gv1", "server.ssl", "on"] ∉
        (wipeGlusterVol envDeleteFail "gv1" (3, 6) "/tmp/tmpKGHKJ").2 ∧
    WEvent.call ["volume", "set", "gv1", "client.ssl", "on"] ∉
        (wipeGlusterVol envDeleteFail "gv1" (3, 6) "/tmp/tmpKGHKJ").2 := by
  decide

/-- Claim C2, amended: once the scratch mount has succeeded, the wipe
always attempts the unmount; if the recursive delete fails, the unmount and
the removal of the temporary mount directory still run, no transport
security re-enable is issued, and the failure is reported as WipeFailed; if
the delete and the unmount succeed, the directory is removed and the
re-enable pair runs client-side first, then server-side, stopping at the
first failure, which is reported as WipeFailed; an unmount failure is
itself reported as a domain failure and skips the directory removal. -/
theorem wipe_after_mount_spec (env : WipeEnv) (vol : String)
    (vers : Nat × Nat) (tmpdir : String)
    (hc : env.glusterCall ["volume", "set", vol, "client.ssl", "off"] = .ok ())
    (hs : env.glusterCall ["volume", "set", vol, "server.ssl", "off"] = .ok ())
    (hm : env.mountVol = .ok ()) :
    WEvent.umount ∈ (wipeGlusterVol env vol vers tmpdir).2 ∧
    (∀ t, env.execute (findDeleteArgs tmpdir (trashcanAware vers)) = .error t →
      (∀ args, WEvent.call args ∈ (wipeGlusterVol env vol vers tmpdir).2 →
        args = ["volume", "set", vol, "client.ssl", "off"] ∨
        args = ["volume", "set", vol, "server.ssl", "off"]) ∧
      (env.umountVol = .ok () →
        WEvent.rmtree ∈ (wipeGlusterVol env vol vers tmpdir).2 ∧
        (wipeGlusterVol env vol vers tmpdir).1 = .error (.domain .wipeFailed))) ∧
    (env.execute (findDeleteArgs tmpdir (trashcanAware vers)) = .ok () →
      env.umountVol = .ok () →
      WEvent.rmtree ∈ (wipeGlusterVol env vol vers tmpdir).2 ∧
      WEvent.call ["volume", "set", vol, "client.ssl", "on"] ∈
        (wipeGlusterVol env vol vers tmpdir).2 ∧
      (∀ t, env.glusterCall ["volume", "set", vol, "client.ssl", "on"] = .error t →
        (wipeGlusterVol env vol vers tmpdir).1 = .error (.domain .wipeFailed) ∧
        WEvent.call ["volume", "set", vol, "server.ssl", "on"] ∉
          (wipeGlusterVol env vol vers tmpdir).2) ∧
      (env.glusterCall ["volume", "set", vol, "client.ssl", "on"] = .ok () →
        WEvent.call ["volume", "set", vol, "server.ssl", "on"] ∈
          (wipeGlusterVol env vol vers tmpdir).2 ∧
        (∀ t, env.glusterCall ["volume", "set", vol, "server.ssl", "on"] = .error t →
          (wipeGlusterVol env vol vers tmpdir).1 = .error (.domain .wipeFailed)) ∧
        (env.glusterCall ["volume", "set", vol, "server.ssl", "on"] = .ok () →
          (wipeGlusterVol env vol vers tmpdir).1 = .ok ()))) ∧
    (∀ e, env.umountVol = .error e →
      (wipeGlusterVol env vol vers tmpdir).1 = .error (.domain e) ∧
      WEvent.rmtree ∉ (wipeGlusterVol env vol vers tmpdir).2) := by
  rcases hex : env.execute (findDeleteArgs tmpdir (trashcanAware vers)) with t0 | u0
  · -- delete fails
    rcases hum : env.umountVol with e0 | u1
    · -- unmount also fails
      refine ⟨?_, ?_, ?_, ?_⟩
      · simp [wipeGlusterVol, hc, hs, hm, hex, hum]
      · intro t ht
        refine ⟨?_, ?_⟩
        · intro args hargs
          simp [wipeGlusterVol, hc, hs, hm, hex, hum] at hargs
          tauto
        · intro habs
          simp at habs
      · intro habs
        simp at habs
      · intro e he
        injection he with h1
        subst h1
        simp [wipeGlusterVol, hc, hs, hm, hex, hum]
    · -- unmount succeeds
      cases u1
      refine ⟨?_, ?_, ?_, ?_⟩
      · simp [wipeGlusterVol, hc, hs, hm, hex, hum]
      · intro t ht
        refine ⟨?_, ?_⟩
        · intro args hargs
          simp [wipeGlusterVol, hc, hs, hm, hex, hum] at hargs
          tauto
        · intro _
          simp [wipeGlusterVol, hc, hs, hm, hex, hum]
      · intro habs
        simp at habs
      · intro e he
        simp at he
  · -- delete succeeds
    cases u0
    rcases hum : env.umountVol with e0 | u1
    · -- unmount fails
      refine ⟨?_, ?_, ?_, ?_⟩
      · simp [wipeGlusterVol, hc, hs, hm, hex, hum]
      · intro t ht
        simp at ht
      · intro _ habs
        simp at habs
      · intro e he
        injection he with h1
        subst h1
        simp [wipeGlusterVol, hc, hs, hm, hex, hum]
    · -- unmount succeeds
      cases u1
      refine ⟨?_, ?_, ?_, ?_⟩
      · simp only [wipeGlusterVol, hc, hs, hm, hex, hum]
        repeat' split
        all_goals simp
      · intro t ht
        simp at ht
      · intro _ _
        rcases honC : env.glusterCall ["volume", "set", vol, "client.ssl", "on"]
          with t1 | u2
        · refine ⟨?_, ?_, ?_, ?_⟩
          · simp [wipeGlusterVol, hc, hs, hm, hex, hum, honC]
          · simp [wipeGlusterVol, hc, hs, hm, hex, hum, honC]
          · intro t ht
            constructor
            · simp [wipeGlusterVol, hc, hs, hm, hex, hum, honC]
            · simp [wipeGlusterVol, hc, hs, hm, hex, hum, honC]
          · intro habs
            simp at habs
        · cases u2
          rcases honS : env.glusterCall ["volume", "set", vol, "server.ssl", "on"]
            with t2 | u3
          · refine ⟨?_, ?_, ?_, ?_⟩
            · simp [wipeGlusterVol, hc, hs, hm, hex, hum, honC, honS]
            · simp [wipeGlusterVol, hc, hs, hm, hex, hum, honC, honS]
            · intro t ht
              simp at ht
            · intro _
              refine ⟨?_, ?_, ?_⟩
              · simp [wipeGlusterVol, hc, hs, hm, hex, hum, honC, honS]
              · intro t ht
                simp [wipeGlusterVol, hc, hs, hm, hex, hum, honC, honS]
              · intro habs
                simp at habs
          · cases u3
            refine ⟨?_, ?_, ?_, ?_⟩
            · simp [wipeGlusterVol, hc, hs, hm, hex, hum, honC, honS]
            · simp [wipeGlusterVol, hc, hs, hm, hex, hum, honC, honS]
            · intro t ht
              simp at ht
            · intro _
              refine ⟨?_, ?_, ?_⟩
              · simp [wipeGlusterVol, hc, hs, hm, hex, hum, honC, honS]
              · intro t ht
                simp at ht
              · intro _
                simp [wipeGlusterVol, hc, hs, hm, hex, hum, honC, honS]
      · intro e he
        simp at he

/-- Witness for C2 (amended) in the setting of
`test_wipe_gluster_vol_excp5`: the delete fails, the unmount still runs. -/
theorem wipe_after_mount_spec_witness :
    WEvent.umount ∈ (wipeGlusterVol envDeleteFail "gv1" (3, 6) "/tmp/tmpKGHKJ").2 :=
  (wipe_after_mount_spec envDeleteFail "gv1" (3, 6) "/tmp/tmpKGHKJ"
    (by decide) (by decide) (by decide)).1

end Manila
